import Mathlib

/-!
Shallow embedding of the weather data-access core of the `loganweather`
repository, together with theorems settling the frozen claims about it.

Modelled sources:
* `src/lib/nws.ts` — unit/geo conversion helpers and the upstream
  aggregator `getWeatherByCoords`;
* `src/lib/weather-pipeline.ts` — the retry wrapper `fetchWithRetry` and
  the bucketed snapshot cache `getSnapshotForBucket`.

Modelling conventions:
* JavaScript numbers are modelled as `ℚ` (exact arithmetic); `NaN` is
  modelled only where a claim depends on it, via the wrapper `JsNum`.
* `number | null` fields become `Option ℚ`; the NWS `{ value: number | null }`
  wrappers are flattened to the `value` they carry.
* Millisecond clock readings (`Date.now()`) are `ℤ` parameters.
* `fetch` results are `Except Err _` values supplied by an environment
  record, keyed by the URL (or station id) the source passes to `fetchJson`.
* Asynchronous suspension is made explicit: the single-threaded event loop
  runs the synchronous prefix of `getSnapshotForBucket` atomically
  (`arrive`), then the fetch-completion handlers (`settle`), then the
  awaiter continuation (`resume`).
-/

deriving instance DecidableEq for Except

namespace LoganWeather

/-- Error values thrown by `fetchJson` and re-thrown by the pipeline
(`new Error(message)` in the source) are modelled by their message. -/
abbrev Err := String

/-- Model of JavaScript `Math.round`: round half toward positive infinity. -/
def jsRound (q : ℚ) : ℤ := ⌊q + 1 / 2⌋

/-- A JavaScript number that may be `NaN`.  Used only where a claim depends
on `NaN` handling (`degreesToCardinal`); elsewhere numbers are plain `ℚ`. -/
inductive JsNum where
  | nan
  | num (q : ℚ)
deriving DecidableEq

/-! ### Unit conversion helpers (`src/lib/nws.ts` lines 82–130) -/

/-- Model of `round(value, digits)` (nws.ts line 82): `null` propagates,
otherwise `Math.round(value * 10^digits) / 10^digits`.  The `Number.isNaN`
guard of the source has no `ℚ` counterpart (`NaN` is unrepresentable here). -/
def round (value : Option ℚ) (digits : ℕ) : Option ℚ :=
  match value with
  | none => none
  | some v =>
      let factor : ℚ := 10 ^ digits
      some ((jsRound (v * factor) : ℚ) / factor)

/-- Model of `cToF` (nws.ts line 88). -/
def cToF (value : Option ℚ) : Option ℚ :=
  match value with
  | none => none
  | some v => round (some (v * (9 / 5) + 32)) 0

/-- Model of `mpsToMph` (nws.ts line 91). -/
def mpsToMph (value : Option ℚ) : Option ℚ :=
  match value with
  | none => none
  | some v => round (some (v * (223694 / 100000))) 0

/-- Model of `metersToMiles` (nws.ts line 94). -/
def metersToMiles (value : Option ℚ) : Option ℚ :=
  match value with
  | none => none
  | some v => round (some (v / (160934 / 100))) 1

/-- Model of `pascalToInHg` (nws.ts line 97). -/
def pascalToInHg (value : Option ℚ) : Option ℚ :=
  match value with
  | none => none
  | some v => round (some (v * (2953 / 10000000))) 2

/-- The fixed 16-point compass table of `degreesToCardinal` (nws.ts
lines 110–127). -/
def directions : List String :=
  ["N", "NNE", "NE", "ENE", "E", "ESE", "SE", "SSE",
   "S", "SSW", "SW", "WSW", "W", "WNW", "NW", "NNW"]

/-- Model of `degreesToCardinal` (nws.ts lines 108–130).  JavaScript `%` is
the truncated remainder (`Int.tmod`); an out-of-range (negative) array index
yields `undefined`, modelled as `none`. -/
def degreesToCardinal (value : Option JsNum) : Option String :=
  match value with
  | none => none
  | some .nan => none
  | some (.num q) =>
      let index : ℤ := Int.tmod (jsRound (q / (45 / 2))) 16
      if index < 0 then none else directions.get? index.toNat

/-! ### NWS response shapes (`src/lib/nws.ts` lines 9–80) -/

/-- Model of `NwsForecastPeriod` (nws.ts lines 9–21). -/
structure NwsForecastPeriod where
  name : String
  startTime : String
  endTime : String
  isDaytime : Bool
  temperature : ℚ
  temperatureUnit : String
  windSpeed : String
  windDirection : String
  shortForecast : String
  detailedForecast : String
  icon : String
deriving DecidableEq

/-- Properties of `NwsForecastResponse` (nws.ts lines 23–28). -/
structure NwsForecastProps where
  periods : List NwsForecastPeriod
  updated : String
deriving DecidableEq

/-- Model of `NwsForecastResponse` (nws.ts lines 23–28). -/
structure NwsForecastResponse where
  properties : NwsForecastProps
deriving DecidableEq

/-- Hourly period (nws.ts lines 30–40): a forecast period with two
optional `{ value: number | null }` fields; the outer `Option` is field
absence, the inner one a `null` value. -/
structure NwsHourlyPeriod extends NwsForecastPeriod where
  probabilityOfPrecipitation : Option (Option ℚ)
  relativeHumidity : Option (Option ℚ)
deriving DecidableEq

/-- Properties of `NwsHourlyResponse` (nws.ts lines 30–40). -/
structure NwsHourlyProps where
  periods : List NwsHourlyPeriod
  updated : String
deriving DecidableEq

/-- Model of `NwsHourlyResponse` (nws.ts lines 30–40). -/
structure NwsHourlyResponse where
  properties : NwsHourlyProps
deriving DecidableEq

/-- Station properties (nws.ts lines 42–49). -/
structure StationProps where
  stationIdentifier : String
  name : String
deriving DecidableEq

/-- One feature of `NwsStationsResponse` (nws.ts lines 42–49). -/
structure StationFeature where
  properties : StationProps
deriving DecidableEq

/-- Model of `NwsStationsResponse` (nws.ts lines 42–49). -/
structure NwsStationsResponse where
  features : List StationFeature
deriving DecidableEq

/-- Properties of `NwsObservationResponse` (nws.ts lines 51–66); the
`{ value: number | null }` wrappers are flattened to `Option ℚ`. -/
structure NwsObservationProps where
  timestamp : String
  textDescription : String
  temperature : Option ℚ
  dewpoint : Option ℚ
  windSpeed : Option ℚ
  windDirection : Option ℚ
  windGust : Option ℚ
  relativeHumidity : Option ℚ
  barometricPressure : Option ℚ
  visibility : Option ℚ
  heatIndex : Option ℚ
  windChill : Option ℚ
deriving DecidableEq

/-- Model of `NwsObservationResponse` (nws.ts lines 51–66). -/
structure NwsObservationResponse where
  properties : NwsObservationProps
deriving DecidableEq

/-- Relative-location inner properties (nws.ts lines 73–78). -/
structure RelLocProps where
  city : Option String
  state : Option String
deriving DecidableEq

/-- Relative location of `NwsPointsResponse` (nws.ts lines 73–78). -/
structure RelativeLocation where
  properties : Option RelLocProps
deriving DecidableEq

/-- Properties of `NwsPointsResponse` (nws.ts lines 68–80). -/
structure NwsPointsProps where
  forecast : String
  forecastHourly : String
  observationStations : String
  relativeLocation : Option RelativeLocation
deriving DecidableEq

/-- Model of `NwsPointsResponse` (nws.ts lines 68–80). -/
structure NwsPointsResponse where
  properties : NwsPointsProps
deriving DecidableEq

/-! ### The `WeatherPayload` data model (`src/lib/nws.ts` lines 148–187) -/

/-- Location part of `WeatherPayload`. -/
structure WeatherLocation where
  name : String
  lat : ℚ
  lon : ℚ
deriving DecidableEq

/-- Current-conditions part of `WeatherPayload`. -/
structure WeatherCurrent where
  temperatureF : Option ℚ
  feelsLikeF : Option ℚ
  condition : String
  humidity : Option ℚ
  windSpeedMph : Option ℚ
  windGustMph : Option ℚ
  windDirection : Option String
  dewPointF : Option ℚ
  pressureInHg : Option ℚ
  visibilityMiles : Option ℚ
  observedAt : Option String
deriving DecidableEq

/-- One daily entry of `WeatherPayload` (also the value type of the
`dailyMap` fold, nws.ts lines 225–235). -/
structure DailyEntry where
  date : String
  name : String
  highF : Option ℚ
  lowF : Option ℚ
  summary : String
  icon : String
deriving DecidableEq

/-- One hourly entry of `WeatherPayload`. -/
structure HourlyEntry where
  time : String
  temperatureF : ℚ
  summary : String
  icon : String
  precipChance : Option ℚ
  humidity : Option ℚ
deriving DecidableEq

/-- The `updatedAt` part of `WeatherPayload`. -/
structure UpdatedAt where
  forecast : String
  hourly : String
deriving DecidableEq

/-- Model of `WeatherPayload` (nws.ts lines 148–187). -/
structure WeatherPayload where
  location : WeatherLocation
  current : WeatherCurrent
  daily : List DailyEntry
  hourly : List HourlyEntry
  updatedAt : UpdatedAt
deriving DecidableEq

/-! ### The upstream aggregator (`src/lib/nws.ts` lines 189–316) -/

/-- Environment supplying the results of the external calls made by
`getWeatherByCoords`: each `fetchJson` call site becomes a field, keyed by
the URL (or station id) the source passes to it.  `dateKey` models
`formatDateKey` (nws.ts lines 100–106), an `Intl.DateTimeFormat` rendering
of an ISO instant in the fixed `America/New_York` time zone, treated as an
opaque function of the ISO string. -/
structure NwsEnv where
  points : Except Err NwsPointsResponse
  forecastAt : String → Except Err NwsForecastResponse
  hourlyAt : String → Except Err NwsHourlyResponse
  stationsAt : String → Except Err NwsStationsResponse
  latestObservation : String → Except Err NwsObservationResponse
  dateKey : String → String

/-- One step of the `dailyMap` fold (nws.ts lines 237–261): insert an
initial entry for an unseen date key, then update the keyed entry from the
period.  JavaScript `Map` preserves key-insertion order, so the map is an
association list with new keys appended at the end. -/
def dailyUpsert (dateKey : String → String) (acc : List (String × DailyEntry))
    (period : NwsForecastPeriod) : List (String × DailyEntry) :=
  let k := dateKey period.startTime
  let acc1 :=
    if (acc.lookup k).isSome then acc
    else
      acc ++ [(k, { date := period.startTime, name := period.name, highF := none,
                    lowF := none, summary := period.shortForecast,
                    icon := period.icon })]
  acc1.map fun kv =>
    if kv.1 = k then
      (kv.1,
        if period.isDaytime then
          { kv.2 with highF := some period.temperature,
                      summary := period.shortForecast, icon := period.icon }
        else
          { kv.2 with lowF := some period.temperature,
                      summary := if kv.2.summary = "" then period.shortForecast
                                 else kv.2.summary })
    else kv

/-- The `dailyMap` fold over all forecast periods (nws.ts lines 237–261),
returning the map values in insertion order (`Array.from(dailyMap.values())`). -/
def foldDaily (dateKey : String → String) (periods : List NwsForecastPeriod) :
    List DailyEntry :=
  (periods.foldl (dailyUpsert dateKey) []).map Prod.snd

/-- The `daily` field construction: fold, then `slice(0, 7)` (nws.ts line 263). -/
def dailyFromPeriods (dateKey : String → String)
    (periods : List NwsForecastPeriod) : List DailyEntry :=
  (foldDaily dateKey periods).take 7

/-- Derived location name (nws.ts lines 216–221): `[city, state]`,
filtered by JavaScript truthiness (dropping absent and empty strings),
joined with a comma. -/
def derivedName (points : NwsPointsResponse) : String :=
  let props := points.properties.relativeLocation.bind fun r => r.properties
  let city := props.bind fun p => p.city
  let state := props.bind fun p => p.state
  String.intercalate ", " (([city, state].filterMap id).filter fun s => s != "")

/-- Model of `getWeatherByCoords` (nws.ts lines 189–316).  The three
`Promise.all` fetches are sequenced; all must succeed, and a failure of any
aborts the aggregation (which of several simultaneous failures surfaces is
immaterial to the claims).  Note the latest-observation fetch (lines
209–213) is *not* guarded: its failure propagates. -/
def getWeatherByCoords (env : NwsEnv) (lat lon : ℚ)
    (overrideName : Option String) : Except Err WeatherPayload := do
  let points ← env.points
  let forecastUrl := points.properties.forecast
  let hourlyUrl := points.properties.forecastHourly
  let stationsUrl := points.properties.observationStations
  let forecast ← env.forecastAt forecastUrl
  let hourly ← env.hourlyAt hourlyUrl
  let stations ← env.stationsAt stationsUrl
  let stationId : Option String :=
    match stations.features.head? with
    | none => none
    | some f =>
        if f.properties.stationIdentifier = "" then none
        else some f.properties.stationIdentifier
  let observation : Option NwsObservationProps ←
    match stationId with
    | some sid => do
        let obs ← env.latestObservation sid
        pure (some obs.properties)
    | none => pure none
  let locationName : String :=
    match overrideName with
    | some s => if s = "" then derivedName points else s
    | none => derivedName points
  let hourlyPeriods := hourly.properties.periods.take 48
  let daily := dailyFromPeriods env.dateKey forecast.properties.periods
  let currentTempF := cToF (observation.bind fun o => o.temperature)
  let feelsLike :=
    observation.bind fun o => o.heatIndex <|> o.windChill <|> o.temperature
  pure
    { location :=
        { name := if locationName = "" then "Unknown" else locationName,
          lat := lat, lon := lon },
      current :=
        { temperatureF :=
            currentTempF <|> (hourlyPeriods.head?.map fun p => p.temperature),
          feelsLikeF := cToF feelsLike,
          condition :=
            (((observation.map fun o => o.textDescription) <|>
              (hourlyPeriods.head?.map fun p => p.shortForecast)).getD
              "Current conditions"),
          humidity := round (observation.bind fun o => o.relativeHumidity) 0,
          windSpeedMph := mpsToMph (observation.bind fun o => o.windSpeed),
          windGustMph := mpsToMph (observation.bind fun o => o.windGust),
          windDirection :=
            degreesToCardinal
              ((observation.bind fun o => o.windDirection).map JsNum.num),
          dewPointF := cToF (observation.bind fun o => o.dewpoint),
          pressureInHg :=
            pascalToInHg (observation.bind fun o => o.barometricPressure),
          visibilityMiles :=
            metersToMiles (observation.bind fun o => o.visibility),
          observedAt := observation.map fun o => o.timestamp },
      daily := daily,
      hourly := hourlyPeriods.map fun p =>
        { time := p.startTime, temperatureF := p.temperature,
          summary := p.shortForecast, icon := p.icon,
          precipChance := round (p.probabilityOfPrecipitation.bind id) 0,
          humidity := round (p.relativeHumidity.bind id) 0 },
      updatedAt :=
        { forecast := forecast.properties.updated,
          hourly := hourly.properties.updated } }

/-! ### The snapshot cache (`src/lib/weather-pipeline.ts`) -/

/-- `CACHE_TTL_MS` (weather-pipeline.ts line 3). -/
def CACHE_TTL_MS : ℤ := 5 * 60 * 1000

/-- `STALE_TTL_MS` (weather-pipeline.ts line 4). -/
def STALE_TTL_MS : ℤ := 30 * 60 * 1000

/-- Model of `CacheEntry` (weather-pipeline.ts line 6). -/
structure CacheEntry where
  data : WeatherPayload
  fetchedAt : ℤ
deriving DecidableEq

/-- Model of `CacheBucket` (weather-pipeline.ts lines 7–11).  The in-flight
promise is modelled by the identity of the outstanding fetch (`none` when
no fetch is outstanding). -/
structure CacheBucket where
  cache : Option CacheEntry
  lastGood : Option CacheEntry
  inFlight : Option ℕ
deriving DecidableEq

/-- The bucket `getBucket` creates on first use of a key
(weather-pipeline.ts line 18): all three fields null. -/
def initialBucket : CacheBucket :=
  { cache := none, lastGood := none, inFlight := none }

/-- The `source` tag of `WeatherMeta` (weather-pipeline.ts line 45). -/
inductive MetaSource where
  | live
  | cache
  | stale
deriving DecidableEq

/-- Model of `WeatherMeta` (weather-pipeline.ts lines 44–48); `fetchedAt`
is kept as the millisecond clock value whose ISO-8601 rendering the source
returns. -/
structure WeatherMeta where
  source : MetaSource
  fetchedAt : ℤ
  ageMs : ℤ
deriving DecidableEq

/-- Model of `buildMeta` (weather-pipeline.ts lines 50–54); `now` is the
`Date.now()` reading taken while building the response. -/
def buildMeta (source : MetaSource) (fetchedAt now : ℤ) : WeatherMeta :=
  { source := source, fetchedAt := fetchedAt, ageMs := now - fetchedAt }

/-- Model of `applyOverrideName` (weather-pipeline.ts lines 56–68); the
`!overrideName` truthiness guard drops both an absent and an empty name. -/
def applyOverrideName (data : WeatherPayload) (overrideName : Option String) :
    WeatherPayload :=
  match overrideName with
  | none => data
  | some s =>
      if s = "" then data
      else { data with location := { data.location with name := s } }

/-- The `{data, meta}` record `getSnapshotForBucket` resolves with. -/
structure SnapshotResult where
  data : WeatherPayload
  meta : WeatherMeta
deriving DecidableEq

/-- The per-bucket pipeline state: the bucket plus instrumentation — the id
the next started fetch will get, and how many times the fetch function has
been invoked. -/
structure PipelineState where
  bucket : CacheBucket
  nextFetchId : ℕ
  fetchCalls : ℕ
deriving DecidableEq

/-- A bucket key's state before any request: a freshly created bucket. -/
def initialState : PipelineState :=
  { bucket := initialBucket, nextFetchId := 0, fetchCalls := 0 }

/-- Outcome of the synchronous prefix of `getSnapshotForBucket`: either a
response served from the fresh cache, or suspension on the in-flight fetch
`fid` with the request's `now` reading captured for later. -/
inductive ArriveResult where
  | served (res : SnapshotResult)
  | awaiting (fid : ℕ) (now : ℤ)
deriving DecidableEq

/-- Cache-miss half of the synchronous prefix (weather-pipeline.ts lines
85–96 up to the `await`): if no fetch is in flight, invoke the fetch
function (counted) and store the new in-flight promise; either way the
request then awaits the in-flight promise. -/
def arriveMiss (s : PipelineState) (now : ℤ) : PipelineState × ArriveResult :=
  match s.bucket.inFlight with
  | some fid => (s, .awaiting fid now)
  | none =>
      let fid := s.nextFetchId
      ({ bucket := { s.bucket with inFlight := some fid },
         nextFetchId := fid + 1, fetchCalls := s.fetchCalls + 1 },
       .awaiting fid now)

/-- The synchronous prefix of `getSnapshotForBucket` (weather-pipeline.ts
lines 75–99): runs atomically on the single-threaded event loop.  A fresh
cache entry (line 78) is served immediately with a `"cache"` tag. -/
def arrive (s : PipelineState) (now : ℤ) (overrideName : Option String) :
    PipelineState × ArriveResult :=
  match s.bucket.cache with
  | some c =>
      if now - c.fetchedAt < CACHE_TTL_MS then
        (s, .served { data := applyOverrideName c.data overrideName,
                      meta := buildMeta .cache c.fetchedAt now })
      else arriveMiss s now
  | none => arriveMiss s now

/-- The completion handlers of the in-flight fetch (weather-pipeline.ts
lines 86–95): `.then` stores the result in both `cache` and `lastGood`
with `fetchedAt = Date.now()` (= `completedAt`), `.finally` clears the
in-flight marker in either case. -/
def settle (s : PipelineState) (result : Except Err WeatherPayload)
    (completedAt : ℤ) : PipelineState :=
  match result with
  | .ok data =>
      { s with bucket :=
          { cache := some { data := data, fetchedAt := completedAt },
            lastGood := some { data := data, fetchedAt := completedAt },
            inFlight := none } }
  | .error _ => { s with bucket := { s.bucket with inFlight := none } }

/-- The awaiter continuation of `getSnapshotForBucket` (weather-pipeline.ts
lines 98–115), resumed after the completion handlers ran: on success,
respond `"live"`; on failure, fall back to `lastGood ?? cache` within the
stale window (`now` is this request's arrival-time reading, line 76) or
re-throw.  `resumedAt` is the `Date.now()` reading at response-build time. -/
def resume (s : PipelineState) (now : ℤ) (result : Except Err WeatherPayload)
    (resumedAt : ℤ) (overrideName : Option String) :
    Except Err SnapshotResult :=
  match result with
  | .ok data =>
      let fetchedAt := ((s.bucket.cache.map fun c => c.fetchedAt).getD resumedAt)
      .ok { data := applyOverrideName data overrideName,
            meta := buildMeta .live fetchedAt resumedAt }
  | .error e =>
      match s.bucket.lastGood <|> s.bucket.cache with
      | some fallback =>
          if now - fallback.fetchedAt < STALE_TTL_MS then
            .ok { data := applyOverrideName fallback.data overrideName,
                  meta := buildMeta .stale fallback.fetchedAt resumedAt }
          else .error e
      | none => .error e

/-- Model of one full `getSnapshotForBucket` request (weather-pipeline.ts
lines 70–116): the synchronous prefix, then — unless served from the fresh
cache — the completion of the awaited fetch with outcome `fetchResult` at
time `completedAt`, then the awaiter continuation. -/
def getSnapshotForBucket (s : PipelineState) (now : ℤ)
    (fetchResult : Except Err WeatherPayload) (completedAt : ℤ)
    (overrideName : Option String) :
    PipelineState × Except Err SnapshotResult :=
  match arrive s now overrideName with
  | (s1, .served res) => (s1, .ok res)
  | (s1, .awaiting _ nowA) =>
      let s2 := settle s1 fetchResult completedAt
      (s2, resume s2 nowA fetchResult completedAt overrideName)

/-- State transitions of a bucket: a request's synchronous prefix, or the
completion of a fetch.  (The awaiter continuation reads but never writes
the bucket.) -/
inductive Step : PipelineState → PipelineState → Prop where
  | arrive (s : PipelineState) (now : ℤ) (o : Option String) :
      Step s (arrive s now o).1
  | settle (s : PipelineState) (r : Except Err WeatherPayload) (t : ℤ) :
      Step s (settle s r t)

/-- States of a bucket reachable from its creation by `getBucket`. -/
inductive Reachable : PipelineState → Prop where
  | init : Reachable initialState
  | step {s s1 : PipelineState} : Reachable s → Step s s1 → Reachable s1

/-! ### The retry wrapper (`src/lib/weather-pipeline.ts` lines 23–42) -/

/-- The fixed delay schedule `attempts` (weather-pipeline.ts line 26). -/
def retrySchedule : List ℤ := [0, 300, 800]

/-- The retry loop of `fetchWithRetry` (weather-pipeline.ts lines 29–41),
instrumented: `fetcher k` is the outcome of the `k`-th aggregator
invocation; the result triple is the loop's outcome (`Except.error` carries
`lastError`, which is still `none` — JavaScript `null` — only if the
schedule list is empty), the number of aggregator invocations made, and
the list of positive delays slept. -/
def runAttempts (fetcher : ℕ → Except Err α) (k : ℕ) (lastError : Option Err) :
    List ℤ → Except (Option Err) α × ℕ × List ℤ
  | [] => (.error lastError, 0, [])
  | delay :: rest =>
      let sleeps := if delay > 0 then [delay] else []
      match fetcher k with
      | .ok a => (.ok a, 1, sleeps)
      | .error e =>
          let r := runAttempts fetcher (k + 1) (some e) rest
          (r.1, r.2.1 + 1, sleeps ++ r.2.2)

/-- Model of `fetchWithRetry` (weather-pipeline.ts lines 25–42). -/
def fetchWithRetry (fetcher : ℕ → Except Err α) :
    Except (Option Err) α × ℕ × List ℤ :=
  runAttempts fetcher 0 none retrySchedule

/-! ### Bucket keys (`src/lib/weather-pipeline.ts` lines 118–132) -/

/-- Three-digit zero padding of the fractional part of a `toFixed(3)`
rendering. -/
def pad3 (k : ℕ) : String :=
  if k < 10 then "00" ++ toString k
  else if k < 100 then "0" ++ toString k
  else toString k

/-- Model of JavaScript `x.toFixed(3)` over exact rationals, per the
ECMAScript `Number.prototype.toFixed` algorithm: the sign is split off
first, then the magnitude is rounded to an integer count of thousandths
with ties toward the larger count. -/
def jsToFixed3 (x : ℚ) : String :=
  let sign := if x < 0 then "-" else ""
  let m := (jsRound (|x| * 1000)).toNat
  sign ++ toString (m / 1000) ++ "." ++ pad3 (m % 1000)

/-- The bucket key `getWeatherSnapshotByCoords` passes to
`getSnapshotForBucket` (weather-pipeline.ts lines 123–125). -/
def getWeatherSnapshotByCoordsKey (lat lon : ℚ) : String :=
  "coords:" ++ (jsToFixed3 lat ++ "," ++ jsToFixed3 lon)

/-- The bucket key `getWeatherSnapshot` passes to `getSnapshotForBucket`
(weather-pipeline.ts line 132). -/
def getWeatherSnapshotKey : String := "default"

/-- Numeric rounding of a coordinate to 3 decimal places, written from the
spec's words ("coordinates rounded to 3 decimal places"), with ties away
from zero; used to compare the spec's rounding-cell notion against the
source's `toFixed(3)` key derivation. -/
def round3Spec (x : ℚ) : ℤ :=
  if x < 0 then -(jsRound (-x * 1000)) else jsRound (x * 1000)

/-! ### Concrete fixtures used by witnesses and counterexamples -/

/-- A concrete points response. -/
def samplePoints : NwsPointsResponse :=
  { properties :=
      { forecast := "https://api.weather.gov/gridpoints/OKX/33,35/forecast",
        forecastHourly :=
          "https://api.weather.gov/gridpoints/OKX/33,35/forecast/hourly",
        observationStations :=
          "https://api.weather.gov/gridpoints/OKX/33,35/stations",
        relativeLocation :=
          some { properties := some { city := some "New York",
                                      state := some "NY" } } } }

/-- A concrete daytime forecast period. -/
def sampleDayPeriod : NwsForecastPeriod :=
  { name := "Monday", startTime := "2024-01-01T06:00:00-05:00",
    endTime := "2024-01-01T18:00:00-05:00", isDaytime := true,
    temperature := 80, temperatureUnit := "F", windSpeed := "5 mph",
    windDirection := "NW", shortForecast := "Sunny",
    detailedForecast := "Sunny all day", icon := "day-icon" }

/-- A concrete nighttime forecast period on the same calendar day. -/
def sampleNightPeriod : NwsForecastPeriod :=
  { name := "Monday Night", startTime := "2024-01-01T18:00:00-05:00",
    endTime := "2024-01-02T06:00:00-05:00", isDaytime := false,
    temperature := 60, temperatureUnit := "F", windSpeed := "5 mph",
    windDirection := "NW", shortForecast := "Clear",
    detailedForecast := "Clear overnight", icon := "night-icon" }

/-- A concrete hourly period. -/
def sampleHourlyPeriod : NwsHourlyPeriod :=
  { toNwsForecastPeriod :=
      { sampleDayPeriod with temperature := 42, shortForecast := "Partly cloudy" },
    probabilityOfPrecipitation := some (some 20),
    relativeHumidity := some (some 55) }

/-- A concrete forecast response. -/
def sampleForecast : NwsForecastResponse :=
  { properties := { periods := [sampleDayPeriod, sampleNightPeriod],
                    updated := "2024-01-01T05:00:00+00:00" } }

/-- A concrete hourly response. -/
def sampleHourly : NwsHourlyResponse :=
  { properties := { periods := [sampleHourlyPeriod],
                    updated := "2024-01-01T05:30:00+00:00" } }

/-- A stations response with one station. -/
def sampleStations : NwsStationsResponse :=
  { features := [{ properties := { stationIdentifier := "KNYC",
                                   name := "Central Park" } }] }

/-- An environment in which every stage succeeds except the
latest-observation fetch, which fails. -/
def envObsFail : NwsEnv :=
  { points := .ok samplePoints,
    forecastAt := fun _ => .ok sampleForecast,
    hourlyAt := fun _ => .ok sampleHourly,
    stationsAt := fun _ => .ok sampleStations,
    latestObservation := fun _ => .error "NWS request failed: 503",
    dateKey := fun s => s.take 10 }

/-- An environment in which the station list is empty and every fetch that
is attempted succeeds. -/
def envNoStations : NwsEnv :=
  { envObsFail with stationsAt := fun _ => .ok { features := [] } }

/-- A small concrete `WeatherPayload` for exercising the cache model. -/
def samplePayload : WeatherPayload :=
  { location := { name := "New York, NY", lat := 40712 / 1000, lon := -74006 / 1000 },
    current :=
      { temperatureF := some 42, feelsLikeF := some 40,
        condition := "Partly cloudy", humidity := some 55,
        windSpeedMph := some 11, windGustMph := none,
        windDirection := some "NW", dewPointF := some 30,
        pressureInHg := some (3012 / 100), visibilityMiles := some 10,
        observedAt := some "2024-01-01T10:51:00+00:00" },
    daily := [], hourly := [],
    updatedAt := { forecast := "2024-01-01T05:00:00+00:00",
                   hourly := "2024-01-01T05:30:00+00:00" } }

/-- A pipeline state holding a prior successful entry fetched at time 0 in
both slots, with no fetch outstanding. -/
def samplePriorState : PipelineState :=
  { bucket := { cache := some { data := samplePayload, fetchedAt := 0 },
                lastGood := some { data := samplePayload, fetchedAt := 0 },
                inFlight := none },
    nextFetchId := 1, fetchCalls := 1 }

/-!
## Theorems settling the claims
-/

/-- C5: `fetchWithRetry` makes at most 3 attempts of the aggregator on the
fixed schedule — immediately, then after 300 ms, then after a further
800 ms — returning the first success (a fetcher failing twice then
succeeding is invoked exactly 3 times and its success returned); if all 3
attempts fail, the error of the last attempt is rethrown unchanged. -/
theorem fetchWithRetry_spec {α : Type} (f : ℕ → Except Err α) :
    (∀ a, f 0 = .ok a → fetchWithRetry f = (.ok a, 1, [])) ∧
    (∀ e0 a, f 0 = .error e0 → f 1 = .ok a →
      fetchWithRetry f = (.ok a, 2, [300])) ∧
    (∀ e0 e1 a, f 0 = .error e0 → f 1 = .error e1 → f 2 = .ok a →
      fetchWithRetry f = (.ok a, 3, [300, 800])) ∧
    (∀ e0 e1 e2, f 0 = .error e0 → f 1 = .error e1 → f 2 = .error e2 →
      fetchWithRetry f = (.error (some e2), 3, [300, 800])) ∧
    (fetchWithRetry f).2.1 ≤ 3 := by
  refine ⟨?_, ?_, ?_, ?_, ?_⟩
  · intro a h; simp [fetchWithRetry, retrySchedule, runAttempts, h]
  · intro e0 a h0 h1; simp [fetchWithRetry, retrySchedule, runAttempts, h0, h1]
  · intro e0 e1 a h0 h1 h2
    simp [fetchWithRetry, retrySchedule, runAttempts, h0, h1, h2]
  · intro e0 e1 e2 h0 h1 h2
    simp [fetchWithRetry, retrySchedule, runAttempts, h0, h1, h2]
  · cases h0 : f 0 <;> cases h1 : f 1 <;> cases h2 : f 2 <;>
      simp [fetchWithRetry, retrySchedule, runAttempts, h0, h1, h2]

/-- Witness for C5: a fetcher failing twice then succeeding is invoked
exactly 3 times, sleeps 300 ms then 800 ms, and its success is returned. -/
theorem fetchWithRetry_witness :
    fetchWithRetry (fun k => if k < 2 then (.error "boom" : Except Err ℕ) else .ok 7) =
      (.ok 7, 3, [300, 800]) :=
  ((fetchWithRetry_spec _).2.2.1) "boom" "boom" 7 rfl rfl rfl

/-- C6: a successful fetch settles both `cache` (fresh) and `lastGood` to
the same new entry and clears the in-flight marker; a failed fetch leaves
both entries untouched (`lastGood` is never cleared by a failure) and
still clears the in-flight marker. -/
theorem settle_spec (s : PipelineState) (d : WeatherPayload) (e : Err) (t : ℤ) :
    (settle s (.ok d) t).bucket.cache = some { data := d, fetchedAt := t } ∧
    (settle s (.ok d) t).bucket.lastGood = some { data := d, fetchedAt := t } ∧
    (settle s (.ok d) t).bucket.inFlight = none ∧
    (settle s (.error e) t).bucket.cache = s.bucket.cache ∧
    (settle s (.error e) t).bucket.lastGood = s.bucket.lastGood ∧
    (settle s (.error e) t).bucket.inFlight = none :=
  ⟨rfl, rfl, rfl, rfl, rfl, rfl⟩

/-- C2: single-flight de-duplication — a request arriving past the fresh
check while a fetch is in flight leaves the state unchanged (in particular
it does not invoke the fetch function) and awaits the existing in-flight
promise; and two concurrent requests to an empty bucket cause exactly one
invocation of the fetch function, both awaiting the same fetch. -/
theorem singleFlight_spec :
    (∀ (s : PipelineState) (now : ℤ) (o : Option String) (fid : ℕ),
        s.bucket.inFlight = some fid →
        (∀ c, s.bucket.cache = some c → ¬(now - c.fetchedAt < CACHE_TTL_MS)) →
        arrive s now o = (s, .awaiting fid now)) ∧
    (∀ (now1 now2 : ℤ) (o1 o2 : Option String),
        (arrive initialState now1 o1).1.fetchCalls = 1 ∧
        (arrive initialState now1 o1).2 = .awaiting 0 now1 ∧
        (arrive (arrive initialState now1 o1).1 now2 o2).1.fetchCalls = 1 ∧
        (arrive (arrive initialState now1 o1).1 now2 o2).2 = .awaiting 0 now2) := by
  constructor
  · intro s now o fid hin hmiss
    cases hc : s.bucket.cache with
    | none => simp [arrive, arriveMiss, hc, hin]
    | some c =>
        have hnf := hmiss c hc
        simp [arrive, arriveMiss, hc, hin, hnf]
  · intro now1 now2 o1 o2
    exact ⟨rfl, rfl, rfl, rfl⟩

/-- Witness for C2: with fetch 4 in flight on an empty-cache bucket, an
arriving request changes nothing and awaits fetch 4. -/
theorem singleFlight_witness :
    arrive { bucket := { cache := none, lastGood := none, inFlight := some 4 },
             nextFetchId := 5, fetchCalls := 5 } 1000 none =
      ({ bucket := { cache := none, lastGood := none, inFlight := some 4 },
         nextFetchId := 5, fetchCalls := 5 }, .awaiting 4 1000) :=
  singleFlight_spec.1 _ 1000 none 4 rfl (fun _ h => Option.noConfusion h)

/-- C4: a request finding a fresh cache entry (age strictly below the
5-minute window) is served that snapshot tagged `cache` with the entry's
`fetchedAt`, the state is unchanged, and the fetch function is not
invoked. -/
theorem freshCacheHit_spec (s : PipelineState) (now : ℤ)
    (r : Except Err WeatherPayload) (tC : ℤ) (o : Option String) (c : CacheEntry)
    (hc : s.bucket.cache = some c) (hfresh : now - c.fetchedAt < CACHE_TTL_MS) :
    getSnapshotForBucket s now r tC o =
      (s, .ok { data := applyOverrideName c.data o,
                meta := buildMeta .cache c.fetchedAt now }) ∧
    (getSnapshotForBucket s now r tC o).1.fetchCalls = s.fetchCalls := by
  have h : getSnapshotForBucket s now r tC o =
      (s, .ok { data := applyOverrideName c.data o,
                meta := buildMeta .cache c.fetchedAt now }) := by
    simp [getSnapshotForBucket, arrive, hc, hfresh]
  exact ⟨h, by rw [h]⟩

/-- Witness for C4: a bucket whose entry is 100 s old serves it tagged
`cache` without touching the state. -/
theorem freshCacheHit_witness :
    getSnapshotForBucket samplePriorState 100000 (.error "unused") 100500 none =
      (samplePriorState,
       .ok { data := applyOverrideName samplePayload none,
             meta := buildMeta .cache 0 100000 }) :=
  (freshCacheHit_spec samplePriorState 100000 (.error "unused") 100500 none
    { data := samplePayload, fetchedAt := 0 } rfl (by decide)).1

/-- C3: when the awaited fetch fails, a prior entry (`lastGood ?? cache`)
whose age is within the 30-minute stale window is served tagged `stale`
with its own `fetchedAt`; with no prior entry, or one at or beyond the
window, the fetch error is propagated unchanged. -/
theorem staleFallback_spec (s : PipelineState) (now : ℤ) (e : Err) (tC : ℤ)
    (o : Option String)
    (hmiss : ∀ c, s.bucket.cache = some c → ¬(now - c.fetchedAt < CACHE_TTL_MS)) :
    (∀ f, (s.bucket.lastGood <|> s.bucket.cache) = some f →
        now - f.fetchedAt < STALE_TTL_MS →
        (getSnapshotForBucket s now (.error e) tC o).2 =
          .ok { data := applyOverrideName f.data o,
                meta := buildMeta .stale f.fetchedAt tC }) ∧
    (∀ f, (s.bucket.lastGood <|> s.bucket.cache) = some f →
        ¬(now - f.fetchedAt < STALE_TTL_MS) →
        (getSnapshotForBucket s now (.error e) tC o).2 = .error e) ∧
    ((s.bucket.lastGood <|> s.bucket.cache) = none →
        (getSnapshotForBucket s now (.error e) tC o).2 = .error e) := by
  obtain ⟨⟨cache, lastGood, inFlight⟩, nid, fc⟩ := s
  have harr : ∃ s1 fid,
      arrive ⟨⟨cache, lastGood, inFlight⟩, nid, fc⟩ now o =
        (s1, .awaiting fid now) ∧
      s1.bucket.cache = cache ∧ s1.bucket.lastGood = lastGood := by
    cases cache with
    | none =>
        cases inFlight with
        | none => exact ⟨_, _, rfl, rfl, rfl⟩
        | some fid => exact ⟨_, _, rfl, rfl, rfl⟩
    | some c =>
        have hnf := hmiss c rfl
        cases inFlight with
        | none =>
            exact ⟨⟨⟨some c, lastGood, some nid⟩, nid + 1, fc + 1⟩, nid,
              by simp [arrive, arriveMiss, hnf], rfl, rfl⟩
        | some fid =>
            exact ⟨⟨⟨some c, lastGood, some fid⟩, nid, fc⟩, fid,
              by simp [arrive, arriveMiss, hnf], rfl, rfl⟩
  obtain ⟨s1, fid, harr, hc1, hg1⟩ := harr
  refine ⟨?_, ?_, ?_⟩
  · intro f hf hstale
    simp only at hf
    simp [getSnapshotForBucket, harr, settle, resume, hc1, hg1, hf, hstale]
  · intro f hf hstale
    simp only at hf
    simp [getSnapshotForBucket, harr, settle, resume, hc1, hg1, hf, hstale]
  · intro hf
    simp only at hf
    simp [getSnapshotForBucket, harr, settle, resume, hc1, hg1, hf]

/-- Witness for C3: a failing fetch on a bucket whose prior entry is
10 minutes old yields that entry tagged `stale`. -/
theorem staleFallback_witness :
    (getSnapshotForBucket samplePriorState 600000 (.error "down") 600500 none).2 =
      .ok { data := applyOverrideName samplePayload none,
            meta := buildMeta .stale 0 600500 } :=
  (staleFallback_spec samplePriorState 600000 "down" 600500 none
      (fun c hc => by
        simp only [samplePriorState, Option.some.injEq] at hc
        rw [← hc]; decide)).1
    { data := samplePayload, fetchedAt := 0 } (by simp [samplePriorState]) (by decide)

/-- Helper for C10: a request's synchronous prefix never modifies the
`cache` and `lastGood` slots. -/
theorem arrive_preserves_entries (s : PipelineState) (now : ℤ) (o : Option String) :
    (arrive s now o).1.bucket.cache = s.bucket.cache ∧
    (arrive s now o).1.bucket.lastGood = s.bucket.lastGood := by
  obtain ⟨⟨cache, lastGood, inFlight⟩, nid, fc⟩ := s
  cases cache with
  | none => cases inFlight with
    | none => exact ⟨rfl, rfl⟩
    | some fid => exact ⟨rfl, rfl⟩
  | some c =>
      by_cases hfresh : now - c.fetchedAt < CACHE_TTL_MS
      · simp [arrive, hfresh]
      · cases inFlight with
        | none => simp [arrive, arriveMiss, hfresh]
        | some fid => simp [arrive, arriveMiss, hfresh]

/-- C10: in every reachable bucket state the `cache` (fresh) slot and the
`lastGood` slot are equal — initialized together and only ever assigned
together — so the failure-path fallback `lastGood ?? cache` never selects
an entry different from `lastGood`, making the two slots redundant. -/
theorem cacheSlots_coincide :
    ∀ s, Reachable s →
      s.bucket.cache = s.bucket.lastGood ∧
      (s.bucket.lastGood <|> s.bucket.cache) = s.bucket.lastGood := by
  have main : ∀ s, Reachable s → s.bucket.cache = s.bucket.lastGood := by
    intro s h
    induction h with
    | init => rfl
    | step hr hstep ih =>
        cases hstep with
        | arrive now o =>
            rw [(arrive_preserves_entries _ now o).1,
                (arrive_preserves_entries _ now o).2]
            exact ih
        | settle r t =>
            cases r with
            | ok d => exact rfl
            | error e => exact ih
  intro s h
  refine ⟨main s h, ?_⟩
  cases hg : s.bucket.lastGood with
  | some g => simp
  | none =>
      have hc : s.bucket.cache = none := (main s h).trans hg
      simp [hg, hc]

/-- Witness for C10: the invariant applied to the freshly created bucket. -/
theorem cacheSlots_coincide_witness :
    initialState.bucket.cache = initialState.bucket.lastGood ∧
    (initialState.bucket.lastGood <|> initialState.bucket.cache) =
      initialState.bucket.lastGood :=
  cacheSlots_coincide initialState Reachable.init

/-- Counterexample for C9: at −90°, `Math.round(−90 / 22.5) % 16` is the
JavaScript remainder −4, so the array lookup is out of range and yields no
table entry, while the claimed index `round(degrees / 22.5) mod 16` is 12,
whose table entry is "W". -/
theorem degreesToCardinal_neg_counterexample :
    degreesToCardinal (some (.num (-90))) = none ∧
    directions.get? ((jsRound ((-90 : ℚ) / (45 / 2)) % 16).toNat) = some "W" := by
  have h : jsRound ((-90 : ℚ) / (45 / 2)) = -4 := by norm_num [jsRound]
  constructor
  · simp only [degreesToCardinal, h]; decide
  · rw [h]; decide

/-- C9 (amended): `degreesToCardinal` maps `null` and `NaN` to `null`; for
every nonnegative degree value it returns the entry at index
`round(degrees / 22.5) mod 16` of the 16-point table starting at N — in
particular 0° ↦ "N", 90° ↦ "E", and 359° wraps to "N". -/
theorem degreesToCardinal_spec :
    degreesToCardinal none = none ∧
    degreesToCardinal (some .nan) = none ∧
    (∀ q : ℚ, 0 ≤ q →
      degreesToCardinal (some (.num q)) =
        directions.get? ((jsRound (q / (45 / 2))).toNat % 16)) ∧
    degreesToCardinal (some (.num 0)) = some "N" ∧
    degreesToCardinal (some (.num 90)) = some "E" ∧
    degreesToCardinal (some (.num 359)) = some "N" := by
  have hmain : ∀ q : ℚ, 0 ≤ q →
      degreesToCardinal (some (.num q)) =
        directions.get? ((jsRound (q / (45 / 2))).toNat % 16) := by
    intro q hq
    have h0 : 0 ≤ jsRound (q / (45 / 2)) := by
      unfold jsRound
      refine Int.floor_nonneg.mpr ?_
      positivity
    obtain ⟨n, hn⟩ := Int.eq_ofNat_of_zero_le h0
    simp only [degreesToCardinal, hn]
    have htm : Int.tmod (Int.ofNat n) 16 = Int.ofNat (n % 16) := rfl
    simp only [Int.ofNat_eq_natCast] at htm
    rw [htm]
    have hlt : ¬(((n % 16 : ℕ) : ℤ) < 0) := not_lt.mpr (Int.natCast_nonneg _)
    rw [if_neg hlt]
    rw [Int.toNat_natCast, Int.toNat_natCast]
  refine ⟨rfl, rfl, hmain, ?_, ?_, ?_⟩
  · have h := hmain 0 le_rfl
    have hr : jsRound ((0 : ℚ) / (45 / 2)) = 0 := by norm_num [jsRound]
    rw [h, hr]; decide
  · have h := hmain 90 (by norm_num)
    have hr : jsRound ((90 : ℚ) / (45 / 2)) = 4 := by norm_num [jsRound]
    rw [h, hr]; decide
  · have h := hmain 359 (by norm_num)
    have hr : jsRound ((359 : ℚ) / (45 / 2)) = 16 := by norm_num [jsRound]
    rw [h, hr]; decide

/-- Witness for C9: the nonnegative-degrees clause applied at 45°. -/
theorem degreesToCardinal_spec_witness :
    degreesToCardinal (some (.num 45)) =
      directions.get? ((jsRound ((45 : ℚ) / (45 / 2))).toNat % 16) :=
  degreesToCardinal_spec.2.2.1 45 (by norm_num)

/-- Helper for C8: `toFixed(3)` renderings agree whenever the 3-decimal
roundings (ties away from zero) agree and the signs agree. -/
theorem jsToFixed3_congr (x y : ℚ) (hr : round3Spec x = round3Spec y)
    (hs : x < 0 ↔ y < 0) : jsToFixed3 x = jsToFixed3 y := by
  by_cases hx : x < 0
  · have hy : y < 0 := hs.mp hx
    have hm : jsRound (|x| * 1000) = jsRound (|y| * 1000) := by
      rw [abs_of_neg hx, abs_of_neg hy]
      have := hr
      rw [round3Spec, round3Spec, if_pos hx, if_pos hy, neg_inj] at this
      exact this
    rw [jsToFixed3, jsToFixed3, if_pos hx, if_pos hy, hm]
  · have hy : ¬(y < 0) := fun h => hx (hs.mpr h)
    have hm : jsRound (|x| * 1000) = jsRound (|y| * 1000) := by
      rw [abs_of_nonneg (not_lt.mp hx), abs_of_nonneg (not_lt.mp hy)]
      rw [round3Spec, round3Spec, if_neg hx, if_neg hy] at hr
      exact hr
    rw [jsToFixed3, jsToFixed3, if_neg hx, if_neg hy, hm]

/-- Helper for C8: every coordinate bucket key carries the `coords:`
namespace prefix and so differs from the default bucket's key. -/
theorem coordsKey_ne_default (lat lon : ℚ) :
    getWeatherSnapshotByCoordsKey lat lon ≠ getWeatherSnapshotKey := by
  intro h
  have hd := congrArg String.data h
  rw [getWeatherSnapshotByCoordsKey, getWeatherSnapshotKey] at hd
  rw [String.data_append] at hd
  simp at hd

/-- C8 (amended): the no-coordinate entry point uses the bucket key
`"default"`; the coordinate entry point derives its key from the
`toFixed(3)` renderings joined as `"lat,lon"` under the `coords:` prefix,
so it never collides with the default key, and two coordinate pairs whose
components round to the same 3-decimal values *and agree in sign* map to
the same bucket key (the sign proviso is forced by the `-0.000` rendering,
see the counterexample). -/
theorem bucketKeys_spec :
    getWeatherSnapshotKey = "default" ∧
    (∀ lat1 lon1 lat2 lon2 : ℚ,
      round3Spec lat1 = round3Spec lat2 →
      round3Spec lon1 = round3Spec lon2 →
      (lat1 < 0 ↔ lat2 < 0) → (lon1 < 0 ↔ lon2 < 0) →
      getWeatherSnapshotByCoordsKey lat1 lon1 =
        getWeatherSnapshotByCoordsKey lat2 lon2) ∧
    (∀ lat lon : ℚ,
      getWeatherSnapshotByCoordsKey lat lon ≠ getWeatherSnapshotKey) := by
  refine ⟨rfl, ?_, coordsKey_ne_default⟩
  intro lat1 lon1 lat2 lon2 hlat hlon hslat hslon
  rw [getWeatherSnapshotByCoordsKey, getWeatherSnapshotByCoordsKey,
    jsToFixed3_congr lat1 lat2 hlat hslat, jsToFixed3_congr lon1 lon2 hlon hslon]

/-- Witness for C8: two coordinate pairs in the same 3-decimal rounding
cells (same signs) map to the same bucket key. -/
theorem bucketKeys_witness :
    getWeatherSnapshotByCoordsKey (40712 / 1000) (-74006 / 1000) =
      getWeatherSnapshotByCoordsKey (407121 / 10000) (-740061 / 10000) :=
  bucketKeys_spec.2.1 _ _ _ _
    (by norm_num [round3Spec, jsRound]) (by norm_num [round3Spec, jsRound])
    (by norm_num) (by norm_num)

/-- Counterexample for C8: the latitudes ±0.0001 lie in the same 3-decimal
rounding cell (both round to 0), yet `toFixed(3)` renders them `-0.000`
and `0.000`, giving different bucket keys. -/
theorem bucketKey_zero_cell_counterexample :
    round3Spec (1 / 10000) = round3Spec (-1 / 10000) ∧
    getWeatherSnapshotByCoordsKey (1 / 10000) 5 ≠
      getWeatherSnapshotByCoordsKey (-1 / 10000) 5 := by
  have hpos : jsToFixed3 (1 / 10000) = "0.000" := by
    have h : jsRound (|(1 / 10000 : ℚ)| * 1000) = 0 := by
      rw [abs_of_nonneg (by norm_num)]
      norm_num [jsRound]
    rw [jsToFixed3, h, if_neg (by norm_num)]
    rfl
  have hneg : jsToFixed3 (-1 / 10000) = "-0.000" := by
    have h : jsRound (|(-1 / 10000 : ℚ)| * 1000) = 0 := by
      rw [abs_of_neg (by norm_num)]
      norm_num [jsRound]
    rw [jsToFixed3, h, if_pos (by norm_num)]
    rfl
  refine ⟨?_, ?_⟩
  · rw [round3Spec, round3Spec, if_neg (by norm_num), if_pos (by norm_num)]
    norm_num [jsRound]
  · rw [getWeatherSnapshotByCoordsKey, getWeatherSnapshotByCoordsKey, hpos, hneg]
    decide

/-- Helper for C7: one upsert step leaves the key sequence unchanged when
the period's date key is present, and appends the new key otherwise. -/
theorem map_fst_dailyUpsert (dk : String → String)
    (acc : List (String × DailyEntry)) (p : NwsForecastPeriod) :
    (dailyUpsert dk acc p).map Prod.fst =
      if (acc.lookup (dk p.startTime)).isSome then acc.map Prod.fst
      else acc.map Prod.fst ++ [dk p.startTime] := by
  rw [dailyUpsert]
  by_cases h : (acc.lookup (dk p.startTime)).isSome
  · rw [if_pos h, if_pos h, List.map_map]
    apply List.map_congr_left
    intro kv _
    simp only [Function.comp]
    split <;> rfl
  · rw [if_neg h, if_neg h, List.map_map, List.map_append]
    have hfst : (acc.map (Prod.fst ∘ fun kv =>
        if kv.1 = dk p.startTime then
          (kv.1,
            if p.isDaytime then
              { kv.2 with highF := some p.temperature,
                          summary := p.shortForecast, icon := p.icon }
            else
              { kv.2 with lowF := some p.temperature,
                          summary := if kv.2.summary = "" then p.shortForecast
                                     else kv.2.summary })
        else kv)) = acc.map Prod.fst := by
      apply List.map_congr_left
      intro kv _
      simp only [Function.comp]
      split <;> rfl
    rw [hfst]
    congr 1
    simp only [List.map_cons, List.map_nil, Function.comp]
    split <;> rfl

/-- Helper for C7: a key the association list does not know is not among
its keys. -/
theorem lookup_none_not_mem (k : String) (acc : List (String × DailyEntry))
    (h : acc.lookup k = none) : k ∉ acc.map Prod.fst := by
  induction acc with
  | nil => simp
  | cons a l ih =>
      rw [List.lookup] at h
      cases hb : (k == a.1) with
      | true => rw [hb] at h; exact Option.noConfusion h
      | false =>
          rw [hb] at h
          simp only [List.map_cons, List.mem_cons]
          rintro (rfl | hmem)
          · simp at hb
          · exact ih h hmem

/-- Helper for C7: the fold keeps the date keys of its accumulator free of
duplicates — at most one entry per calendar day. -/
theorem foldDaily_keys_nodup (dk : String → String) (ps : List NwsForecastPeriod) :
    ∀ acc : List (String × DailyEntry), (acc.map Prod.fst).Nodup →
      ((ps.foldl (dailyUpsert dk) acc).map Prod.fst).Nodup := by
  induction ps with
  | nil => intro acc h; simpa using h
  | cons p rest ih =>
      intro acc h
      rw [List.foldl_cons]
      apply ih
      rw [map_fst_dailyUpsert]
      by_cases hl : (acc.lookup (dk p.startTime)).isSome
      · rw [if_pos hl]; exact h
      · rw [if_neg hl]
        have hnone : acc.lookup (dk p.startTime) = none := by
          cases hlk : acc.lookup (dk p.startTime) with
          | none => rfl
          | some v => rw [hlk] at hl; simp at hl
        have hnm := lookup_none_not_mem (dk p.startTime) acc hnone
        simp [List.nodup_append, h, hnm]

/-- Helper for C7: one upsert step rewrites the entry stored under the
period's date key — a daytime period sets the high temperature, summary
and icon; a nighttime period sets the low temperature and replaces the
summary only when it was empty. -/
theorem lookup_dailyUpsert_found (dk : String → String)
    (acc : List (String × DailyEntry)) (p : NwsForecastPeriod)
    (entry : DailyEntry) (h : acc.lookup (dk p.startTime) = some entry) :
    (dailyUpsert dk acc p).lookup (dk p.startTime) =
      some (if p.isDaytime then
              { entry with highF := some p.temperature,
                           summary := p.shortForecast, icon := p.icon }
            else
              { entry with lowF := some p.temperature,
                           summary := if entry.summary = "" then p.shortForecast
                                      else entry.summary }) := by
  rw [dailyUpsert]
  rw [if_pos (by rw [h]; rfl)]
  induction acc with
  | nil => exact Option.noConfusion h
  | cons a l ih =>
      rw [List.lookup] at h
      cases hb : (dk p.startTime == a.1) with
      | true =>
          rw [hb] at h
          have hk : a.1 = dk p.startTime := (eq_of_beq hb).symm
          have he : a.2 = entry := Option.some.inj h
          rw [List.map_cons, if_pos hk]
          simp only [List.lookup]
          rw [hb, he]
      | false =>
          rw [hb] at h
          have hk : ¬(a.1 = dk p.startTime) := by
            intro hEq
            rw [hEq] at hb
            simp at hb
          rw [List.map_cons, if_neg hk]
          simp only [List.lookup]
          rw [hb]
          exact ih h

/-- C7: the daily fold groups forecast periods by the date key of their
start time into at most 7 entries with at most one entry per date key —
for every period list a daytime period sets the keyed entry's high
temperature, summary and icon while a nighttime period sets its low
temperature and fills the summary only when empty, so a day-80/night-60
pair on one calendar day folds to a single entry with high 80 and low
60 — and a successful aggregation carries at most 7 daily and 48 hourly
entries. -/
theorem dailyFold_spec :
    (∀ (dk : String → String) (ps : List NwsForecastPeriod),
        (dailyFromPeriods dk ps).length ≤ 7) ∧
    (∀ (dk : String → String) (ps : List NwsForecastPeriod),
        ((ps.foldl (dailyUpsert dk) ([] : List (String × DailyEntry))).map
          Prod.fst).Nodup) ∧
    (∀ (dk : String → String) (acc : List (String × DailyEntry))
        (p : NwsForecastPeriod) (entry : DailyEntry),
        acc.lookup (dk p.startTime) = some entry →
        (dailyUpsert dk acc p).lookup (dk p.startTime) =
          some (if p.isDaytime then
                  { entry with highF := some p.temperature,
                               summary := p.shortForecast, icon := p.icon }
                else
                  { entry with lowF := some p.temperature,
                               summary := if entry.summary = ""
                                          then p.shortForecast
                                          else entry.summary })) ∧
    (∀ (dk : String → String) (pd pn : NwsForecastPeriod),
        pd.isDaytime = true → pn.isDaytime = false →
        dk pd.startTime = dk pn.startTime →
        dailyFromPeriods dk [pd, pn] =
          [{ date := pd.startTime, name := pd.name,
             highF := some pd.temperature, lowF := some pn.temperature,
             summary := if pd.shortForecast = "" then pn.shortForecast
                        else pd.shortForecast,
             icon := pd.icon }]) ∧
    (∀ (env : NwsEnv) (lat lon : ℚ) (o : Option String) (pay : WeatherPayload),
        getWeatherByCoords env lat lon o = .ok pay →
        pay.daily.length ≤ 7 ∧ pay.hourly.length ≤ 48) := by
  refine ⟨?_, ?_, ?_, ?_, ?_⟩
  · intro dk ps
    exact List.length_take_le 7 (foldDaily dk ps)
  · intro dk ps
    exact foldDaily_keys_nodup dk ps [] (by simp)
  · intro dk acc p entry h
    exact lookup_dailyUpsert_found dk acc p entry h
  · intro dk pd pn hd hn hk
    have h1 : dailyUpsert dk [] pd =
        [(dk pd.startTime,
          { date := pd.startTime, name := pd.name, highF := some pd.temperature,
            lowF := none, summary := pd.shortForecast, icon := pd.icon })] := by
      rw [dailyUpsert]
      simp [hd]
    have h2 : dailyUpsert dk (dailyUpsert dk [] pd) pn =
        [(dk pd.startTime,
          { date := pd.startTime, name := pd.name, highF := some pd.temperature,
            lowF := some pn.temperature,
            summary := if pd.shortForecast = "" then pn.shortForecast
                       else pd.shortForecast,
            icon := pd.icon })] := by
      rw [h1, dailyUpsert]
      simp [List.lookup, ← hk, hn]
    unfold dailyFromPeriods foldDaily
    rw [List.foldl, List.foldl, List.foldl, h2]
    rfl
  · intro env lat lon o pay h
    unfold getWeatherByCoords at h
    simp only [bind, Except.bind, pure, Except.pure] at h
    repeat' split at h
    all_goals try exact Except.noConfusion h
    all_goals injection h with h
    all_goals subst h
    all_goals refine ⟨?_, ?_⟩
    all_goals simp [dailyFromPeriods, List.length_take]

/-- Witness for C7: the concrete day-80/night-60 pair folds to one entry
with high 80 and low 60. -/
theorem dailyFold_witness :
    dailyFromPeriods (fun _ => "2024-01-01") [sampleDayPeriod, sampleNightPeriod] =
      [{ date := sampleDayPeriod.startTime, name := sampleDayPeriod.name,
         highF := some sampleDayPeriod.temperature,
         lowF := some sampleNightPeriod.temperature,
         summary := if sampleDayPeriod.shortForecast = ""
                    then sampleNightPeriod.shortForecast
                    else sampleDayPeriod.shortForecast,
         icon := sampleDayPeriod.icon }] :=
  dailyFold_spec.2.2.2.1 _ sampleDayPeriod sampleNightPeriod rfl rfl rfl

/-- C1 (amended): when the station list is empty the aggregation still
succeeds with a degraded snapshot whose current conditions are
approximated from the first hourly period; but when the station list is
nonempty and the latest-observation fetch fails, that error propagates —
the aggregation aborts rather than degrading. -/
theorem observationBestEffort_spec :
    (∀ (env : NwsEnv) (lat lon : ℚ) (o : Option String)
        (P : NwsPointsResponse) (F : NwsForecastResponse)
        (H : NwsHourlyResponse) (S : NwsStationsResponse),
        env.points = .ok P →
        env.forecastAt P.properties.forecast = .ok F →
        env.hourlyAt P.properties.forecastHourly = .ok H →
        env.stationsAt P.properties.observationStations = .ok S →
        S.features = [] →
        ∃ pay, getWeatherByCoords env lat lon o = .ok pay ∧
          pay.current.temperatureF =
            ((H.properties.periods.take 48).head?.map fun p => p.temperature) ∧
          pay.current.condition =
            (((H.properties.periods.take 48).head?.map fun p => p.shortForecast).getD
              "Current conditions") ∧
          pay.current.observedAt = none) ∧
    (∀ (env : NwsEnv) (lat lon : ℚ) (o : Option String)
        (P : NwsPointsResponse) (F : NwsForecastResponse)
        (H : NwsHourlyResponse) (S : NwsStationsResponse)
        (f : StationFeature) (rest : List StationFeature) (e : Err),
        env.points = .ok P →
        env.forecastAt P.properties.forecast = .ok F →
        env.hourlyAt P.properties.forecastHourly = .ok H →
        env.stationsAt P.properties.observationStations = .ok S →
        S.features = f :: rest →
        f.properties.stationIdentifier ≠ "" →
        env.latestObservation f.properties.stationIdentifier = .error e →
        getWeatherByCoords env lat lon o = .error e) := by
  constructor
  · intro env lat lon o P F H S hp hf hh hs hfeat
    unfold getWeatherByCoords
    simp only [bind, Except.bind, pure, Except.pure]
    rw [hp]; dsimp only
    rw [hf]; dsimp only
    rw [hh]; dsimp only
    rw [hs]; dsimp only
    rw [hfeat]; simp only [List.head?_nil]; try dsimp only
    refine ⟨_, rfl, ?_, ?_, ?_⟩ <;> simp [cToF]
  · intro env lat lon o P F H S f rest e hp hf hh hs hfeat hsid hobs
    unfold getWeatherByCoords
    simp only [bind, Except.bind, pure, Except.pure]
    rw [hp]; dsimp only
    rw [hf]; dsimp only
    rw [hh]; dsimp only
    rw [hs]; dsimp only
    rw [hfeat]; simp only [List.head?_cons]; try dsimp only
    rw [if_neg hsid]; try dsimp only
    rw [hobs]

/-- Witness for C1: an environment with an empty station list yields a
successful snapshot whose current conditions come from the first hourly
period. -/
theorem observationBestEffort_witness :
    ∃ pay, getWeatherByCoords envNoStations 40 (-74) none = .ok pay ∧
      pay.current.temperatureF =
        ((sampleHourly.properties.periods.take 48).head?.map fun p => p.temperature) ∧
      pay.current.condition =
        (((sampleHourly.properties.periods.take 48).head?.map fun p => p.shortForecast).getD
          "Current conditions") ∧
      pay.current.observedAt = none :=
  observationBestEffort_spec.1 envNoStations 40 (-74) none samplePoints
    sampleForecast sampleHourly { features := [] } rfl rfl rfl rfl rfl

/-- Counterexample for C1: with a nonempty station list whose
latest-observation fetch fails, `getWeatherByCoords` aborts with that
upstream error instead of returning a degraded snapshot. -/
theorem observationFailure_counterexample :
    getWeatherByCoords envObsFail 40 (-74) none =
      .error "NWS request failed: 503" :=
  observationBestEffort_spec.2 envObsFail 40 (-74) none samplePoints
    sampleForecast sampleHourly sampleStations
    { properties := { stationIdentifier := "KNYC", name := "Central Park" } } []
    "NWS request failed: 503" rfl rfl rfl rfl rfl (by decide) rfl

end LoganWeather
